import Mathlib

/-!
Verification of the interview control loop of the Multi-Agent Interview Coach
repository.  The repository contains two parallel controllers:

* `interview_system.py` — the class `MultiAgentInterviewCoach` with methods
  `start`, `_adjust_difficulty`, `_detect_edge_case`, `process`, and the
  module-level helpers `extract_json` and `call_llm_with_json_retry`;
* the LangGraph path — `state.py` (`create_initial_state`,
  `_grade_to_initial_difficulty`), `graph.py` (`mentor_node`,
  `should_continue`) and `agents/agents.py` (`FactCheckerAgent.check`).

Each Lean definition below is a shallow embedding of one of those Python
functions, over the state components that the verified properties speak
about (the transcript strings, prompt texts and log records that no
property mentions are carried only where a property needs them).  External
LLM calls are modelled as explicit parameters: the analysis record the
mentor call would return, the parsed fact-check record, and the raw
interviewer reply text.
-/

/-! ### Python string primitives

Python `str.lower`, `str.strip`, `len` and the `in` substring test are
modelled on the character list underlying a `String`.  The case folding
model is ASCII (the Lean `Char.toLower`); all literal trigger phrases in
the source are already lower case, so properties quantified over messages
are stated on the lowered text.
-/

/-- Models Python `str.lower` (ASCII case folding; other characters are
left unchanged by this model). -/
def py_lower (s : String) : String := ⟨s.data.map Char.toLower⟩

/-- Models Python `str.strip`: removes leading and trailing whitespace. -/
def py_strip (s : String) : String :=
  ⟨((s.data.dropWhile Char.isWhitespace).reverse.dropWhile Char.isWhitespace).reverse⟩

/-- Models Python `len` on a string: the number of code points. -/
def py_len (s : String) : Nat := s.data.length

/-- Models the Python substring test `sub in s`. -/
def py_in (sub s : String) : Bool := s.data.tails.any (fun t => sub.data.isPrefixOf t)

/-! ### The defensively parsed oracle records -/

/-- The value of a JSON boolean field as seen through Python `dict.get`:
`jtrue`/`jfalse` for the two booleans, `jnull` for an explicit JSON
`null`, and `jmissing` for an absent key. -/
inductive JBool where
  | jtrue
  | jfalse
  | jnull
  | jmissing
deriving DecidableEq, Repr

/-- Truthiness of `d.get(key, True)` on a `JBool` field: an absent key
defaults to `True`; `null` and `False` are falsy. -/
def JBool.truthy_or_default (b : JBool) : Bool :=
  match b with
  | .jtrue => true
  | .jfalse => false
  | .jnull => false
  | .jmissing => true

/-- The mentor analysis record (`AnalysisRecord` of the spec), produced by
the oracle and defensively read through `dict.get`.  `Option` models an
absent (or JSON-`null`, for the boolean fields) value. -/
structure AnalysisRecord where
  is_correct : Option Bool := none
  correctness_score : Option Int := none
  confidence_level : Option String := none
  red_flags : List String := []
  is_hallucination : Option Bool := none
  is_question_from_candidate : Option Bool := none
  is_off_topic : Option Bool := none
  is_dont_know : Option Bool := none
  is_silence : Option Bool := none
  is_rude : Option Bool := none
  topic_detected : Option String := none
  difficulty_recommendation : Option String := none
  recommendation_text : Option String := none
deriving DecidableEq, Repr

/-- Python truthiness of `analysis.get(flag)` for a boolean flag: only a
present `True` is truthy. -/
def obool (b : Option Bool) : Bool := b.getD false

/-- A parsed fact-check record, as read by the two controllers. -/
structure FCRecord where
  is_true : JBool := .jmissing
  explanation : String := ""
  correct_info : String := ""
deriving DecidableEq, Repr

/-! ### Initial difficulty (state.py lines 60-99, interview_system.start) -/

/-- Embeds `_grade_to_initial_difficulty` of `state.py` (the identical
grade mapping also appears inline in `MultiAgentInterviewCoach.start`):
substring tests on the lowered declared grade. -/
def grade_to_initial_difficulty (grade : String) : Int :=
  let g := py_lower grade
  if py_in "senior" g then 8
  else if py_in "middle" g then 6
  else if py_in "junior+" g || py_in "junior plus" g then 5
  else if py_in "junior" g then 3
  else 2

/-- Embeds the difficulty seeding of `create_initial_state` (state.py
lines 96-99): an explicitly supplied level is clamped to [1,10], otherwise
the level is derived from the grade. -/
def initial_difficulty_level (grade : String) (explicit : Option Int) : Int :=
  match explicit with
  | none => grade_to_initial_difficulty grade
  | some x => max 1 (min 10 x)

/-! ### Edge-case classifier (interview_system.py lines 683-715) -/

/-- The edge-case tags of `_detect_edge_case`; the Python function returns
one of these strings or `None`. -/
inductive EdgeCase where
  | silence
  | dont_know
  | rude
  | troll
deriving DecidableEq, Repr

/-- The filler tokens of the silence rule. -/
def silence_fillers : List String := [".", "...", "-", "—"]

/-- The fixed list of admitted-ignorance phrases. -/
def dont_know_phrases : List String :=
  ["не знаю", "не помню", "не сталкивался", "не уверен",
   "затрудняюсь", "не могу ответить", "пропустить", "skip",
   "не изучал", "не работал с этим", "не приходилось"]

/-- The fixed list of hostile phrases. -/
def rude_phrases : List String :=
  ["отстань", "достал", "надоел", "глупый вопрос", "тупой",
   "идиот", "дурак", "пошёл", "отвали", "заткнись"]

/-- The fixed list of non-answer troll tokens. -/
def troll_indicators : List String :=
  ["42", "потому что", "а зачем", "не скажу", "угадай",
   "секрет", "магия", "потому что гладиолус"]

/-- The lowered and stripped message, `msg_lower` of `_detect_edge_case`. -/
def normalized_message (user_msg : String) : String := py_strip (py_lower user_msg)

/-- The silence test of `_detect_edge_case`: trimmed length below 3 or a
filler token. -/
def silence_condition (user_msg : String) : Bool :=
  let m := normalized_message user_msg
  decide (py_len m < 3) || silence_fillers.contains m

/-- The admitted-ignorance test: a listed phrase occurs in the message, or
the oracle flag `is_dont_know` is truthy. -/
def dont_know_condition (user_msg : String) (analysis : AnalysisRecord) : Bool :=
  let m := normalized_message user_msg
  dont_know_phrases.any (fun p => py_in p m) || obool analysis.is_dont_know

/-- The hostility test: a listed phrase occurs in the message, or the
oracle flag `is_rude` is truthy. -/
def rude_condition (user_msg : String) (analysis : AnalysisRecord) : Bool :=
  let m := normalized_message user_msg
  rude_phrases.any (fun p => py_in p m) || obool analysis.is_rude

/-- The troll test: the message equals a troll token, or is short and
contains a question mark, while the oracle score (default 50) is below 10
and the message is not flagged as a candidate question. -/
def troll_condition (user_msg : String) (analysis : AnalysisRecord) : Bool :=
  let m := normalized_message user_msg
  (troll_indicators.contains m || (decide (py_len m < 10) && py_in "?" m))
    && (decide (analysis.correctness_score.getD 50 < 10)
        && !(obool analysis.is_question_from_candidate))

/-- Embeds `MultiAgentInterviewCoach._detect_edge_case`: the four rules in
source order, first match winning; `none` models the Python `None`. -/
def detect_edge_case (user_msg : String) (analysis : AnalysisRecord) : Option EdgeCase :=
  if silence_condition user_msg then some .silence
  else if dont_know_condition user_msg analysis then some .dont_know
  else if rude_condition user_msg analysis then some .rude
  else if troll_condition user_msg analysis then some .troll
  else none

/-! ### Difficulty adapter (interview_system.py lines 664-680) -/

/-- The mutable coach state of `MultiAgentInterviewCoach` (the fields the
verified properties speak about). -/
structure CoachState where
  difficulty : Int := 2
  correct_streak : Int := 0
  difficulty_history : List Int := []
  topics_covered : List String := []
  red_flags : List String := []
  history : List (String × String) := []
  turn_num : Int := 0
  finished : Bool := false
deriving DecidableEq, Repr

/-- `analysis.get("difficulty_recommendation", "maintain")`. -/
def analysis_rec (a : AnalysisRecord) : String := a.difficulty_recommendation.getD "maintain"

/-- `analysis.get("correctness_score", 50)`. -/
def analysis_score (a : AnalysisRecord) : Int := a.correctness_score.getD 50

/-- The streak value after the first step of `_adjust_difficulty`:
incremented on a truthy verdict with score at least 80, otherwise reset. -/
def updated_streak (st : CoachState) (a : AnalysisRecord) : Int :=
  if obool a.is_correct && decide (80 ≤ analysis_score a) then st.correct_streak + 1 else 0

/-- The raise test of `_adjust_difficulty`: a truthy verdict together with
an increase recommendation or an (updated) streak of at least two. -/
def raise_condition (st : CoachState) (a : AnalysisRecord) : Bool :=
  obool a.is_correct && (analysis_rec a == "increase" || decide (2 ≤ updated_streak st a))

/-- The lower test of `_adjust_difficulty`: a decrease recommendation, or
a non-truthy verdict with score below 40. -/
def lower_condition (a : AnalysisRecord) : Bool :=
  analysis_rec a == "decrease" || (!(obool a.is_correct) && decide (analysis_score a < 40))

/-- Embeds `MultiAgentInterviewCoach._adjust_difficulty`: streak update,
then the raise / lower / hold branches, then an unconditional append of
the (possibly unchanged) level to the difficulty history. -/
def adjust_difficulty (st : CoachState) (a : AnalysisRecord) : CoachState :=
  let streak1 := updated_streak st a
  let difficulty2 :=
    if raise_condition st a then min 10 (st.difficulty + 1)
    else if lower_condition a then max 1 (st.difficulty - 1)
    else st.difficulty
  let streak2 := if raise_condition st a then 0 else streak1
  { st with
    difficulty := difficulty2
    correct_streak := streak2
    difficulty_history := st.difficulty_history ++ [difficulty2] }

/-! ### Turn controller (interview_system.py `process`, lines 717-829) -/

/-- The termination keywords checked by `process`. -/
def term_keywords : List String := ["стоп", "stop", "фидбэк", "feedback"]

/-- The termination test of `process`: any keyword occurs in the lowered
candidate message. -/
def contains_term_command (user_msg : String) : Bool :=
  term_keywords.any (fun cmd => py_in cmd (py_lower user_msg))

/-- Embeds `FactCheckerAgent.check` of `interview_system.py`: the raw
retry result (`none` models the empty dict returned after retry
exhaustion, that is an unparseable fact-check response) is replaced by a
default record that reports the statement false. -/
def fact_checker_check (raw : Option FCRecord) : FCRecord :=
  raw.getD { is_true := .jfalse, explanation := "Не удалось проверить утверждение", correct_info := "" }

/-- The red-flag string built by `process` from a negative fact-check. -/
def hallucination_flag (fc : FCRecord) : String :=
  "ГАЛЛЮЦИНАЦИЯ: " ++ fc.explanation ++ ". Правильная информация: " ++ fc.correct_info

/-- The result of one `process` call: the successor state plus a record of
which collaborators the controller invoked on this message. -/
structure ProcessResult where
  state : CoachState
  mentor_called : Bool
  fact_check_called : Bool
  feedback_generated : Bool
  edge_case : Option EdgeCase
deriving DecidableEq, Repr

/-- The topics-covered update of `process`: a truthy detected topic not
yet listed is appended. -/
def update_topics (st : CoachState) (a : AnalysisRecord) : CoachState :=
  match a.topic_detected with
  | some t => if t ≠ "" ∧ ¬ st.topics_covered.contains t
              then { st with topics_covered := st.topics_covered ++ [t] } else st
  | none => st

/-- Embeds `MultiAgentInterviewCoach.process`.  The external calls are
parameters: `a` is the record `mentor.analyze` would return (already
defaulted by `analyze` when its own retries were exhausted), `fc_raw` the
raw result of the fact-check retry loop (`none` for an unparseable
response), and `resp` the interviewer reply text.  The flag
`mentor_called` records whether the controller consulted the mentor at
all on this message. -/
def process (st : CoachState) (user_msg : String) (a : AnalysisRecord)
    (fc_raw : Option FCRecord) (resp : String) : ProcessResult :=
  let st1 : CoachState :=
    { st with turn_num := st.turn_num + 1, history := st.history ++ [("user", user_msg)] }
  if contains_term_command user_msg then
    { state := { st1 with finished := true }
      mentor_called := false
      fact_check_called := false
      feedback_generated := true
      edge_case := none }
  else
    let edge := detect_edge_case user_msg a
    let st2 := update_topics st1 a
    let st3 :=
      if edge = none then adjust_difficulty st2 a
      else if edge = some .dont_know ∨ edge = some .silence then
        { st2 with
          difficulty := max 1 (st2.difficulty - 1)
          difficulty_history := st2.difficulty_history ++ [max 1 (st2.difficulty - 1)] }
      else st2
    let fc_called := obool a.is_hallucination
    let st4 :=
      if fc_called then
        let fc := fact_checker_check fc_raw
        if fc.is_true.truthy_or_default = false then
          { st3 with red_flags := st3.red_flags ++ [hallucination_flag fc] }
        else st3
      else st3
    let st5 : CoachState := { st4 with history := st4.history ++ [("assistant", resp)] }
    { state := st5
      mentor_called := true
      fact_check_called := fc_called
      feedback_generated := false
      edge_case := edge }

/-- The initial coach state built by `MultiAgentInterviewCoach.__init__`
followed by the seeding part of `start`: the grade-derived level seeds the
difficulty history before any turn. -/
def coach_start (grade : String) : CoachState :=
  let d := grade_to_initial_difficulty grade
  { difficulty := d
    correct_streak := 0
    difficulty_history := [d]
    topics_covered := []
    red_flags := []
    history := []
    turn_num := 0
    finished := false }

/-! ### The LangGraph mentor node (graph.py lines 46-168) -/

/-- The graph session state (`InterviewState` of state.py), restricted to
the components read and written by `mentor_node` that the verified
properties speak about. -/
structure GraphState where
  difficulty_mode : String := "adaptive"
  difficulty_level : Int := 2
  correct_streak : Int := 0
  difficulty_history : List Int := []
  red_flags : List String := []
  topics_covered : List String := []
deriving DecidableEq, Repr

/-- The hallucination-indicating tokens searched in the oracle red-flag
strings by `mentor_node`. -/
def hallucination_hint_tokens : List String :=
  ["галлю", "hallucin", "ложн", "false fact", "factually"]

/-- The confidence strings that `mentor_node` counts as high. -/
def high_confidence_levels : List String := ["high", "высок", "высокий", "высокая"]

/-- The normalized difficulty mode: a falsy mode falls back to adaptive,
then is lowered. -/
def graph_mode (st : GraphState) : String :=
  py_lower (if st.difficulty_mode = "" then "adaptive" else st.difficulty_mode)

/-- The incoming difficulty level as read by `mentor_node`: a falsy value
falls back to 2, then the level is clamped to [1,10]. -/
def graph_clamped_level (st : GraphState) : Int :=
  max 1 (min 10 (if st.difficulty_level = 0 then 2 else st.difficulty_level))

/-- The incoming difficulty history as read by `mentor_node`: an empty
history falls back to the singleton of the clamped level. -/
def graph_base_history (st : GraphState) : List Int :=
  if st.difficulty_history = [] then [graph_clamped_level st] else st.difficulty_history

/-- The escalation gate of `mentor_node` (graph.py lines 66-84): the
hallucination flag, a hallucination hint among the oracle red flags, a
confidently wrong verdict, or the fixed known-false trigger phrase in the
raw candidate message. -/
def graph_should_fact_check (last_user_message : String) (a : AnalysisRecord) : Bool :=
  let has_hint := a.red_flags.any (fun flag =>
    hallucination_hint_tokens.any (fun tok => py_in tok (py_lower flag)))
  let is_high_confidence := high_confidence_levels.contains (py_lower (a.confidence_level.getD ""))
  let is_low_score :=
    match a.correctness_score with
    | some s => decide (s ≤ 40)
    | none => false
  let is_confidently_wrong := is_high_confidence && (a.is_correct == some false || is_low_score)
  obool a.is_hallucination || has_hint || is_confidently_wrong
    || py_in "python 4" (py_lower last_user_message)

/-- Embeds `FactCheckerAgent.check` of `agents/agents.py`: a JSON decode
failure (`none`) yields a record whose `is_true` field is JSON `null`. -/
def agents_fact_checker_check (raw : Option FCRecord) : FCRecord :=
  raw.getD { is_true := .jnull, explanation := "Could not verify", correct_info := "" }

/-- The red-flag string built by `mentor_node` from a negative
fact-check. -/
def graph_hallucination_flag (fc : FCRecord) : String :=
  py_strip ("ГАЛЛЮЦИНАЦИЯ/ЛОЖНЫЙ ФАКТ: " ++ fc.explanation
    ++ ". Правильная информация: " ++ fc.correct_info)

/-- The difficulty recommendation as read by `mentor_node`: a falsy value
falls back to maintain, then is lowered. -/
def graph_rec (a : AnalysisRecord) : String :=
  py_lower (if a.difficulty_recommendation.getD "" = "" then "maintain"
            else a.difficulty_recommendation.getD "")

/-- The streak value after the first adaptive step of `mentor_node`: the
verdict must be exactly `True` and the score a number at least 80. -/
def graph_updated_streak (st : GraphState) (a : AnalysisRecord) : Int :=
  if a.is_correct == some true
      && (match a.correctness_score with | some s => decide (80 ≤ s) | none => false)
  then st.correct_streak + 1 else 0

/-- The raise test of the adaptive block of `mentor_node`: an increase
recommendation or an (updated) streak of at least two — the verdict is
not consulted here. -/
def graph_raise_condition (st : GraphState) (a : AnalysisRecord) : Bool :=
  graph_rec a == "increase" || decide (2 ≤ graph_updated_streak st a)

/-- The result of one `mentor_node` call: the updated state components
plus whether the escalation gate invoked the fact-check call. -/
structure MentorResult where
  out : GraphState
  fact_check_called : Bool
deriving DecidableEq, Repr

/-- Embeds `mentor_node` of `graph.py`: reads and normalizes the
difficulty fields, runs the escalation gate and folds a negative
fact-check verdict into the red flags, updates the covered topics, and in
adaptive mode runs the difficulty update, appending to the history only
when the level changed.  `a` is the record `mentor.analyze` would return
and `fc_raw` the raw parsed fact-check response (`none` for a JSON decode
failure). -/
def mentor_node (st : GraphState) (last_user_message : String) (a : AnalysisRecord)
    (fc_raw : Option FCRecord) : MentorResult :=
  let dl := graph_clamped_level st
  let hist := graph_base_history st
  let should := graph_should_fact_check last_user_message a
  let new_flags :=
    if should then
      let fc := agents_fact_checker_check fc_raw
      if fc.is_true = .jfalse then [graph_hallucination_flag fc] else []
    else []
  let topics :=
    let t := py_strip (a.topic_detected.getD "")
    if t ≠ "" ∧ ¬ st.topics_covered.contains t then st.topics_covered ++ [t]
    else st.topics_covered
  let adaptive := graph_mode st = "adaptive"
  let streak1 := if adaptive then graph_updated_streak st a else st.correct_streak
  let dl2 :=
    if adaptive then
      if graph_raise_condition st a then min 10 (dl + 1)
      else if graph_rec a == "decrease" then max 1 (dl - 1)
      else if (match a.correctness_score with | some s => decide (s ≤ 40) | none => false)
      then max 1 (dl - 1)
      else dl
    else dl
  let streak2 := if adaptive ∧ graph_raise_condition st a then 0 else streak1
  let hist2 := if adaptive ∧ dl2 ≠ dl then hist ++ [dl2] else hist
  { out :=
      { difficulty_mode := graph_mode st
        difficulty_level := dl2
        correct_streak := streak2
        difficulty_history := hist2
        red_flags := st.red_flags ++ new_flags
        topics_covered := topics }
    fact_check_called := should }

/-- The termination keywords checked by `should_continue` of graph.py. -/
def graph_term_keywords : List String := ["стоп", "stop", "завершить", "фидбэк", "feedback"]

/-- Embeds `should_continue` of `graph.py`: the routing decision after the
interviewer node, as a function of the finished flag, the last candidate
message if any, the turn counter and the configured maximum. -/
def should_continue (finished : Bool) (last_user : Option String)
    (current_turn max_turns : Int) : String :=
  if finished then "end"
  else if (match last_user with
           | some m => graph_term_keywords.any (fun cmd => py_in cmd (py_lower m))
           | none => false)
  then "feedback"
  else if current_turn ≥ max_turns then "feedback"
  else "mentor"

/-! ### Structured-response recovery (interview_system.py lines 60-97)

`call_llm_with_json_retry` is modelled over two external parameters: the
LLM call `llm` (an `Except`, since the Python call can raise, and the
loop catches every exception and treats it as a failed attempt) and the
composition `extract` of `extract_json` with the Python truthiness test
`if result:` — `some j` models a parsed non-empty JSON object, `none`
models an unparseable response or a parsed empty object, both of which
the loop treats identically (it retries, and after exhaustion returns the
empty record, modelled `none`).  The model also returns the trace of
calls actually issued, so that the attempt count, per-attempt prompt and
per-attempt temperature are observable.
-/

/-- One LLM call as issued by the retry loop: the prompt text and the
sampling temperature. -/
structure RetryCall where
  prompt : String
  temperature : ℚ
deriving DecidableEq, Repr

/-- The stricter JSON-only instruction appended on retries (the f-string
of lines 72-79; `\x7b` is the literal opening brace of the text). -/
def retry_suffix (attempt : Nat) : String :=
  "\n\nКРИТИЧЕСКИ ВАЖНО (попытка " ++ toString (attempt + 1) ++ "):\n"
  ++ "- Верни ТОЛЬКО валидный JSON\n"
  ++ "- НЕ добавляй никакого текста до или после JSON\n"
  ++ "- НЕ используй code-обёртки\n"
  ++ "- Начни ответ сразу с открывающей фигурной скобки \x7b\n"

/-- The prompt sent on a given (0-indexed) attempt: unmodified on attempt
0, with the stricter instruction appended afterwards. -/
def retry_attempt_prompt (prompt : String) (attempt : Nat) : String :=
  if attempt = 0 then prompt else prompt ++ retry_suffix attempt

/-- The temperature of a given attempt: `max(0.3, base - 0.2 * attempt)`. -/
def retry_temperature (base : ℚ) (attempt : Nat) : ℚ :=
  max (3/10) (base - attempt * (1/5))

/-- The outcome of one attempt: the extracted record if the call
succeeded and its response parsed to a non-empty object, otherwise
`none` (covering both a raised exception and a failed parse). -/
def attempt_outcome {J : Type} (llm : String → ℚ → Except Unit String)
    (extract : String → Option J) (prompt : String) (base : ℚ) (attempt : Nat) : Option J :=
  match llm (retry_attempt_prompt prompt attempt) (retry_temperature base attempt) with
  | .error _ => none
  | .ok resp => extract resp

/-- The retry loop from a given attempt index with a given number of
attempts remaining: issues the call, short-circuits on success, otherwise
recurses; also accumulates the trace of issued calls. -/
def retry_go {J : Type} (llm : String → ℚ → Except Unit String)
    (extract : String → Option J) (prompt : String) (base : ℚ) :
    Nat → Nat → Option J × List RetryCall
  | _, 0 => (none, [])
  | attempt, fuel + 1 =>
    let c : RetryCall :=
      { prompt := retry_attempt_prompt prompt attempt
        temperature := retry_temperature base attempt }
    match attempt_outcome llm extract prompt base attempt with
    | some j => (some j, [c])
    | none =>
      let r := retry_go llm extract prompt base (attempt + 1) fuel
      (r.1, c :: r.2)

/-- Embeds `call_llm_with_json_retry`: up to `max_retries` attempts
starting at attempt 0; `none` in the first component models the empty
record returned after exhaustion. -/
def call_llm_with_json_retry {J : Type} (llm : String → ℚ → Except Unit String)
    (extract : String → Option J) (prompt : String) (max_retries : Nat) (base : ℚ) :
    Option J × List RetryCall :=
  retry_go llm extract prompt base 0 max_retries

/-! ### Helper lemmas -/

section RetryLemmas

variable {J : Type} (llm : String → ℚ → Except Unit String)
  (extract : String → Option J) (prompt : String) (base : ℚ)

lemma retry_go_fst : ∀ fuel attempt,
    (retry_go llm extract prompt base attempt fuel).1
      = (List.range' attempt fuel).findSome? (attempt_outcome llm extract prompt base) := by
  intro fuel
  induction fuel with
  | zero => intro attempt; simp [retry_go, List.range']
  | succ n ih =>
    intro attempt
    show (retry_go llm extract prompt base attempt (n + 1)).1
      = (attempt :: List.range' (attempt + 1) n).findSome?
          (attempt_outcome llm extract prompt base)
    rw [List.findSome?_cons]
    cases h : attempt_outcome llm extract prompt base attempt with
    | some j => simp [retry_go, h]
    | none => simp [retry_go, h, ih]

lemma retry_go_trace_len : ∀ fuel attempt,
    (retry_go llm extract prompt base attempt fuel).2.length ≤ fuel := by
  intro fuel
  induction fuel with
  | zero => intro attempt; simp [retry_go]
  | succ n ih =>
    intro attempt
    cases h : attempt_outcome llm extract prompt base attempt with
    | some j => simp [retry_go, h]
    | none =>
      have := ih (attempt + 1)
      simp only [retry_go, h, List.length_cons]
      omega

lemma retry_go_trace : ∀ fuel attempt,
    (retry_go llm extract prompt base attempt fuel).2
      = (List.range' attempt (retry_go llm extract prompt base attempt fuel).2.length).map
          (fun k => { prompt := retry_attempt_prompt prompt k
                      temperature := retry_temperature base k }) := by
  intro fuel
  induction fuel with
  | zero => intro attempt; simp [retry_go]
  | succ n ih =>
    intro attempt
    cases ho : attempt_outcome llm extract prompt base attempt with
    | some j => simp [retry_go, ho, List.range']
    | none =>
      have hih := ih (attempt + 1)
      simp only [retry_go, ho, List.length_cons]
      show _ :: (retry_go llm extract prompt base (attempt + 1) n).2
        = (List.range' attempt ((retry_go llm extract prompt base (attempt + 1) n).2.length + 1)).map _
      rw [List.range'_succ, List.map_cons]
      exact congrArg _ hih

end RetryLemmas

section FieldLemmas

variable (st : CoachState) (a : AnalysisRecord)

lemma adjust_difficulty_val :
    (adjust_difficulty st a).difficulty
      = (if raise_condition st a then min 10 (st.difficulty + 1)
         else if lower_condition a then max 1 (st.difficulty - 1)
         else st.difficulty) := rfl

lemma adjust_streak_val :
    (adjust_difficulty st a).correct_streak
      = (if raise_condition st a then 0 else updated_streak st a) := rfl

lemma adjust_history_val :
    (adjust_difficulty st a).difficulty_history
      = st.difficulty_history ++ [(adjust_difficulty st a).difficulty] := rfl

lemma adjust_red_flags_val : (adjust_difficulty st a).red_flags = st.red_flags := rfl

lemma update_topics_difficulty : (update_topics st a).difficulty = st.difficulty := by
  unfold update_topics
  cases a.topic_detected
  · rfl
  · dsimp only
    split <;> rfl

lemma update_topics_streak : (update_topics st a).correct_streak = st.correct_streak := by
  unfold update_topics
  cases a.topic_detected
  · rfl
  · dsimp only
    split <;> rfl

lemma update_topics_history :
    (update_topics st a).difficulty_history = st.difficulty_history := by
  unfold update_topics
  cases a.topic_detected
  · rfl
  · dsimp only
    split <;> rfl

lemma update_topics_red_flags : (update_topics st a).red_flags = st.red_flags := by
  unfold update_topics
  cases a.topic_detected
  · rfl
  · dsimp only
    split <;> rfl

lemma updated_streak_congr (st' : CoachState)
    (h : st'.correct_streak = st.correct_streak) : updated_streak st' a = updated_streak st a := by
  unfold updated_streak
  rw [h]

lemma raise_condition_congr (st' : CoachState)
    (h : st'.correct_streak = st.correct_streak) : raise_condition st' a = raise_condition st a := by
  unfold raise_condition
  rw [updated_streak_congr st a st' h]

end FieldLemmas

section MentorFieldLemmas

variable (gst : GraphState) (msg : String) (a : AnalysisRecord) (fc : Option FCRecord)

lemma mentor_node_level :
    (mentor_node gst msg a fc).out.difficulty_level
      = (if graph_mode gst = "adaptive" then
           if graph_raise_condition gst a then min 10 (graph_clamped_level gst + 1)
           else if graph_rec a == "decrease" then max 1 (graph_clamped_level gst - 1)
           else if (match a.correctness_score with | some s => decide (s ≤ 40) | none => false)
           then max 1 (graph_clamped_level gst - 1)
           else graph_clamped_level gst
         else graph_clamped_level gst) := rfl

lemma mentor_node_streak :
    (mentor_node gst msg a fc).out.correct_streak
      = (if graph_mode gst = "adaptive" ∧ graph_raise_condition gst a then 0
         else if graph_mode gst = "adaptive" then graph_updated_streak gst a
         else gst.correct_streak) := by
  show (if graph_mode gst = "adaptive" ∧ graph_raise_condition gst a then 0
        else if graph_mode gst = "adaptive" then graph_updated_streak gst a
        else gst.correct_streak) = _
  split_ifs <;> rfl

lemma mentor_node_history :
    (mentor_node gst msg a fc).out.difficulty_history
      = (if graph_mode gst = "adaptive"
            ∧ (mentor_node gst msg a fc).out.difficulty_level ≠ graph_clamped_level gst
         then graph_base_history gst ++ [(mentor_node gst msg a fc).out.difficulty_level]
         else graph_base_history gst) := rfl

lemma mentor_node_red_flags :
    (mentor_node gst msg a fc).out.red_flags
      = gst.red_flags
        ++ (if graph_should_fact_check msg a then
              if (agents_fact_checker_check fc).is_true = .jfalse
              then [graph_hallucination_flag (agents_fact_checker_check fc)] else []
            else []) := rfl

lemma mentor_node_called :
    (mentor_node gst msg a fc).fact_check_called = graph_should_fact_check msg a := rfl

end MentorFieldLemmas

lemma adjust_difficulty_bounds (st : CoachState) (a : AnalysisRecord)
    (h1 : 1 ≤ st.difficulty) (h2 : st.difficulty ≤ 10) :
    1 ≤ (adjust_difficulty st a).difficulty ∧ (adjust_difficulty st a).difficulty ≤ 10 := by
  rw [adjust_difficulty_val]
  split_ifs <;> omega


lemma update_topics_finished (st : CoachState) (a : AnalysisRecord) :
    (update_topics st a).finished = st.finished := by
  unfold update_topics
  cases a.topic_detected
  · rfl
  · dsimp only
    split <;> rfl

lemma adjust_finished_val (st : CoachState) (a : AnalysisRecord) :
    (adjust_difficulty st a).finished = st.finished := rfl

lemma process_difficulty_val (st : CoachState) (msg : String) (a : AnalysisRecord)
    (fc : Option FCRecord) (resp : String) :
    (process st msg a fc resp).state.difficulty
      = (if contains_term_command msg then st.difficulty
         else if detect_edge_case msg a = none then
           (if raise_condition st a then min 10 (st.difficulty + 1)
            else if lower_condition a then max 1 (st.difficulty - 1)
            else st.difficulty)
         else if detect_edge_case msg a = some .dont_know
             ∨ detect_edge_case msg a = some .silence
         then max 1 (st.difficulty - 1)
         else st.difficulty) := by
  by_cases ht : contains_term_command msg = true
  · simp [process, ht]
  · rw [Bool.not_eq_true] at ht
    by_cases he : detect_edge_case msg a = none
    · simp only [process, ht, he, Bool.false_eq_true, if_false, if_pos rfl,
        adjust_difficulty, raise_condition, updated_streak,
        lower_condition, update_topics_difficulty, update_topics_streak]
      split_ifs <;> simp_all [update_topics_streak]
    · by_cases hds : detect_edge_case msg a = some .dont_know
          ∨ detect_edge_case msg a = some .silence
      · simp only [process, ht, he, hds, Bool.false_eq_true, if_false, if_true,
          update_topics_difficulty, update_topics_streak]
        split_ifs <;> simp_all [update_topics_difficulty]
      · simp only [process, ht, he, hds, Bool.false_eq_true, if_false,
          update_topics_difficulty, update_topics_streak]
        split_ifs <;> simp_all [update_topics_difficulty]

lemma process_streak_val (st : CoachState) (msg : String) (a : AnalysisRecord)
    (fc : Option FCRecord) (resp : String) :
    (process st msg a fc resp).state.correct_streak
      = (if contains_term_command msg then st.correct_streak
         else if detect_edge_case msg a = none then
           (if raise_condition st a then 0 else updated_streak st a)
         else st.correct_streak) := by
  by_cases ht : contains_term_command msg = true
  · simp [process, ht]
  · rw [Bool.not_eq_true] at ht
    by_cases he : detect_edge_case msg a = none
    · simp only [process, ht, he, Bool.false_eq_true, if_false, if_pos rfl,
        adjust_difficulty, raise_condition, updated_streak,
        lower_condition, update_topics_difficulty, update_topics_streak]
      split_ifs <;> simp_all [update_topics_streak]
    · by_cases hds : detect_edge_case msg a = some .dont_know
          ∨ detect_edge_case msg a = some .silence
      · simp only [process, ht, he, hds, Bool.false_eq_true, if_false, if_true,
          update_topics_difficulty, update_topics_streak]
        split_ifs <;> simp_all [update_topics_streak]
      · simp only [process, ht, he, hds, Bool.false_eq_true, if_false,
          update_topics_difficulty, update_topics_streak]
        split_ifs <;> simp_all [update_topics_streak]

lemma process_history_val (st : CoachState) (msg : String) (a : AnalysisRecord)
    (fc : Option FCRecord) (resp : String) :
    (process st msg a fc resp).state.difficulty_history
      = (if contains_term_command msg then st.difficulty_history
         else if detect_edge_case msg a = none
             ∨ detect_edge_case msg a = some .dont_know
             ∨ detect_edge_case msg a = some .silence
         then st.difficulty_history ++ [(process st msg a fc resp).state.difficulty]
         else st.difficulty_history) := by
  rw [process_difficulty_val]
  by_cases ht : contains_term_command msg = true
  · simp [process, ht]
  · rw [Bool.not_eq_true] at ht
    by_cases he : detect_edge_case msg a = none
    · simp only [process, ht, he, Bool.false_eq_true, if_false, if_pos rfl, true_or,
        adjust_difficulty, raise_condition, updated_streak,
        lower_condition, update_topics_difficulty, update_topics_streak,
        update_topics_history]
      split_ifs <;> simp_all [update_topics_history, update_topics_difficulty]
    · by_cases hds : detect_edge_case msg a = some .dont_know
          ∨ detect_edge_case msg a = some .silence
      · simp only [process, ht, he, hds, Bool.false_eq_true, if_false, if_true, or_true,
          update_topics_difficulty, update_topics_streak, update_topics_history]
        split_ifs <;> simp_all [update_topics_history, update_topics_difficulty]
      · simp only [process, ht, he, hds, Bool.false_eq_true, if_false, false_or,
          update_topics_difficulty, update_topics_streak, update_topics_history]
        split_ifs <;> simp_all [update_topics_history]

lemma process_red_flags_val (st : CoachState) (msg : String) (a : AnalysisRecord)
    (fc : Option FCRecord) (resp : String) :
    (process st msg a fc resp).state.red_flags
      = (if contains_term_command msg then st.red_flags
         else if obool a.is_hallucination
             ∧ (fact_checker_check fc).is_true.truthy_or_default = false
         then st.red_flags ++ [hallucination_flag (fact_checker_check fc)]
         else st.red_flags) := by
  by_cases ht : contains_term_command msg = true
  · simp [process, ht]
  · rw [Bool.not_eq_true] at ht
    by_cases hfc : obool a.is_hallucination = true
    · by_cases hit : (fact_checker_check fc).is_true.truthy_or_default = false
      · simp only [process, ht, hfc, hit, Bool.false_eq_true, if_false, if_true,
          and_self, update_topics_red_flags, adjust_red_flags_val]
        split_ifs <;> simp_all [update_topics_red_flags, adjust_red_flags_val]
      · simp only [process, ht, hfc, hit, Bool.false_eq_true, if_false,
          update_topics_red_flags, adjust_red_flags_val]
        split_ifs <;> simp_all [update_topics_red_flags, adjust_red_flags_val]
    · simp only [process, ht, hfc, Bool.false_eq_true, if_false,
        update_topics_red_flags, adjust_red_flags_val]
      split_ifs <;> simp_all [update_topics_red_flags, adjust_red_flags_val]

lemma process_mentor_called (st : CoachState) (msg : String) (a : AnalysisRecord)
    (fc : Option FCRecord) (resp : String) :
    (process st msg a fc resp).mentor_called = !(contains_term_command msg) := by
  by_cases ht : contains_term_command msg = true
  · simp [process, ht]
  · rw [Bool.not_eq_true] at ht
    simp [process, ht]

lemma process_fc_called (st : CoachState) (msg : String) (a : AnalysisRecord)
    (fc : Option FCRecord) (resp : String) :
    (process st msg a fc resp).fact_check_called
      = (!(contains_term_command msg) && obool a.is_hallucination) := by
  by_cases ht : contains_term_command msg = true
  · simp [process, ht]
  · rw [Bool.not_eq_true] at ht
    simp [process, ht]

lemma process_feedback_val (st : CoachState) (msg : String) (a : AnalysisRecord)
    (fc : Option FCRecord) (resp : String) :
    (process st msg a fc resp).feedback_generated = contains_term_command msg := by
  by_cases ht : contains_term_command msg = true
  · simp [process, ht]
  · rw [Bool.not_eq_true] at ht
    simp [process, ht]

lemma process_edge_val (st : CoachState) (msg : String) (a : AnalysisRecord)
    (fc : Option FCRecord) (resp : String) :
    (process st msg a fc resp).edge_case
      = (if contains_term_command msg then none else detect_edge_case msg a) := by
  by_cases ht : contains_term_command msg = true
  · simp [process, ht]
  · rw [Bool.not_eq_true] at ht
    simp [process, ht]

lemma process_finished_val (st : CoachState) (msg : String) (a : AnalysisRecord)
    (fc : Option FCRecord) (resp : String) :
    (process st msg a fc resp).state.finished
      = (contains_term_command msg || st.finished) := by
  by_cases ht : contains_term_command msg = true
  · simp [process, ht]
  · rw [Bool.not_eq_true] at ht
    simp only [process, ht, Bool.false_eq_true, if_false, Bool.false_or]
    split_ifs <;> simp_all [update_topics_finished, adjust_finished_val]

/-! ### Claim C1: the difficulty level stays in [1,10] -/

set_option maxHeartbeats 1000000 in
/-- C1: for every interview session, after session start and after every
processed candidate turn, the difficulty level is an integer in [1,10]:
the grade-derived seeding, an explicitly supplied initial level (clamped),
every branch of the interview_system turn controller (normal path,
edge-case override, termination), and the graph mentor node keep the
level within these bounds. -/
theorem C1_difficulty_always_in_bounds :
    (∀ grade, 1 ≤ grade_to_initial_difficulty grade ∧ grade_to_initial_difficulty grade ≤ 10)
    ∧ (∀ grade explicit, 1 ≤ initial_difficulty_level grade explicit
        ∧ initial_difficulty_level grade explicit ≤ 10)
    ∧ (∀ grade, 1 ≤ (coach_start grade).difficulty ∧ (coach_start grade).difficulty ≤ 10)
    ∧ (∀ st msg a fc resp, 1 ≤ st.difficulty → st.difficulty ≤ 10 →
        1 ≤ (process st msg a fc resp).state.difficulty
          ∧ (process st msg a fc resp).state.difficulty ≤ 10)
    ∧ (∀ gst msg a fc, 1 ≤ (mentor_node gst msg a fc).out.difficulty_level
        ∧ (mentor_node gst msg a fc).out.difficulty_level ≤ 10) := by
  have hgrade : ∀ grade, 1 ≤ grade_to_initial_difficulty grade
      ∧ grade_to_initial_difficulty grade ≤ 10 := by
    intro grade
    simp only [grade_to_initial_difficulty]
    split_ifs
    any_goals omega
  refine ⟨hgrade, ?_, ?_, ?_, ?_⟩
  · intro grade explicit
    cases explicit with
    | none => exact hgrade grade
    | some x => simp only [initial_difficulty_level]; omega
  · intro grade
    exact hgrade grade
  · intro st msg a fc resp h1 h2
    rw [process_difficulty_val]
    split_ifs
    any_goals omega
  · intro gst msg a fc
    simp only [mentor_node_level]
    have hd1 : (1:Int) ≤ graph_clamped_level gst := by
      unfold graph_clamped_level
      exact le_max_left _ _
    have hd10 : graph_clamped_level gst ≤ 10 := by
      unfold graph_clamped_level
      exact max_le (by norm_num) (min_le_left _ _)
    split_ifs <;>
      refine ⟨?_, ?_⟩ <;>
      first
        | exact hd1
        | exact hd10
        | exact min_le_left _ _
        | exact le_max_left _ _
        | exact le_min (by norm_num) (by linarith)
        | exact max_le (by norm_num) (by linarith)

/-- Witness for C1 at a concrete session: a Junior start followed by one
processed message keeps the level in bounds. -/
theorem C1_difficulty_always_in_bounds_witness :
    1 ≤ (process (coach_start "Junior") "ответ про списки"
          { } none "ок").state.difficulty
    ∧ (process (coach_start "Junior") "ответ про списки"
          { } none "ок").state.difficulty ≤ 10 :=
  C1_difficulty_always_in_bounds.2.2.2.1 (coach_start "Junior") "ответ про списки"
    { } none "ок" (by decide) (by decide)

/-! ### Claim C2: the normal-path increase rule -/

/-- C2 counterexample: in the graph controller, an increase
recommendation raises the level even though the verdict is explicitly not
correct — `mentor_node` checks only the recommendation and the streak,
never the verdict, so the level climbs from 5 to 6 here. -/
theorem C2_counterexample_graph_increase_without_correct :
    (mentor_node
        { difficulty_mode := "adaptive", difficulty_level := 5, correct_streak := 0,
          difficulty_history := [5], red_flags := [], topics_covered := [] }
        "ответ"
        { is_correct := some false, correctness_score := some 20,
          difficulty_recommendation := some "increase" }
        none).out.difficulty_level = 6
    ∧ ({ is_correct := some false, correctness_score := some 20,
         difficulty_recommendation := some "increase" } : AnalysisRecord).is_correct
        ≠ some true := by
  constructor
  · rfl
  · decide

/-- C2 (amended): in the interview_system adapter, the level is raised by
one (clamped at 10) and the streak reset to 0 exactly under the raise
condition (truthy verdict AND (increase recommendation OR updated streak
at least 2)); without the raise condition the level never increases, and
in particular an increase recommendation on a turn whose verdict is not
truthy never raises the level.  In the graph controller, by contrast, the
raise fires on an increase recommendation regardless of the verdict. -/
theorem C2_increase_rule :
    (∀ st a, raise_condition st a = true →
        (adjust_difficulty st a).difficulty = min 10 (st.difficulty + 1)
        ∧ (adjust_difficulty st a).correct_streak = 0)
    ∧ (∀ st a, 1 ≤ st.difficulty → raise_condition st a = false →
        (adjust_difficulty st a).difficulty ≤ st.difficulty)
    ∧ (∀ st a, 1 ≤ st.difficulty → obool a.is_correct = false →
        (adjust_difficulty st a).difficulty ≤ st.difficulty)
    ∧ (∀ gst msg a fc, graph_mode gst = "adaptive" → graph_raise_condition gst a = true →
        (mentor_node gst msg a fc).out.difficulty_level
          = min 10 (graph_clamped_level gst + 1)) := by
  have hnot : ∀ st a, 1 ≤ st.difficulty → raise_condition st a = false →
      (adjust_difficulty st a).difficulty ≤ st.difficulty := by
    intro st a h1 hrc
    rw [adjust_difficulty_val]
    simp only [hrc, Bool.false_eq_true, if_false]
    split_ifs <;> omega
  refine ⟨?_, hnot, ?_, ?_⟩
  · intro st a hrc
    refine ⟨?_, ?_⟩
    · rw [adjust_difficulty_val]
      simp [hrc]
    · rw [adjust_streak_val]
      simp [hrc]
  · intro st a h1 hic
    apply hnot st a h1
    unfold raise_condition
    rw [hic]
    rfl
  · intro gst msg a fc hmode hraise
    rw [mentor_node_level]
    simp only [hmode, hraise, if_true]

/-- Witness for C2 at a concrete input: a correct 95-score answer with an
increase recommendation raises a level-3 session to 4 and resets the
streak. -/
theorem C2_increase_rule_witness :
    raise_condition
        { difficulty := 3, correct_streak := 0, difficulty_history := [3],
          topics_covered := [], red_flags := [], history := [], turn_num := 0,
          finished := false }
        { is_correct := some true, correctness_score := some 95,
          difficulty_recommendation := some "increase" } = true
    ∧ (adjust_difficulty
        { difficulty := 3, correct_streak := 0, difficulty_history := [3],
          topics_covered := [], red_flags := [], history := [], turn_num := 0,
          finished := false }
        { is_correct := some true, correctness_score := some 95,
          difficulty_recommendation := some "increase" }).difficulty = min 10 (3 + 1)
    ∧ (adjust_difficulty
        { difficulty := 3, correct_streak := 0, difficulty_history := [3],
          topics_covered := [], red_flags := [], history := [], turn_num := 0,
          finished := false }
        { is_correct := some true, correctness_score := some 95,
          difficulty_recommendation := some "increase" }).correct_streak = 0 := by
  refine ⟨by decide, ?_⟩
  exact C2_increase_rule.1 _ _ (by decide)

/-! ### Claim C3: the known-false trigger phrase and the escalation gate -/

/-- C3 counterexample: in the interview_system controller, a candidate
message containing the known-false trigger phrase does not invoke the
fact-check when the oracle record's hallucination flag is false — the
`process` gate consults only that flag. -/
theorem C3_counterexample_trigger_phrase_ignored :
    py_in "python 4" (py_lower "я читал что в python 4.0 убрали gil") = true
    ∧ (process { } "я читал что в python 4.0 убрали gil"
        { is_hallucination := some false } none "ок").fact_check_called = false := by
  constructor
  · decide
  · decide

/-- C3 (amended): in the graph controller, the escalation gate fires
whenever the raw message contains the known-false trigger phrase,
whatever the analysis record says; in the interview_system controller the
gate depends solely on the hallucination flag of the analysis record, so
a trigger phrase in the raw message does not by itself invoke the
fact-check there. -/
theorem C3_escalation_trigger :
    (∀ gst msg a fc, py_in "python 4" (py_lower msg) = true →
        (mentor_node gst msg a fc).fact_check_called = true)
    ∧ (∀ st msg a fc resp, contains_term_command msg = false →
        (process st msg a fc resp).fact_check_called = obool a.is_hallucination) := by
  constructor
  · intro gst msg a fc h
    rw [mentor_node_called]
    unfold graph_should_fact_check
    simp [h]
  · intro st msg a fc resp ht
    rw [process_fc_called, ht]
    simp

/-- Witness for C3 at a concrete input: a lower-case message naming the
nonexistent version triggers the graph gate on an empty analysis
record. -/
theorem C3_escalation_trigger_witness :
    (mentor_node { } "в python 4 убрали gil" { } none).fact_check_called = true :=
  C3_escalation_trigger.1 { } "в python 4 убрали gil" { } none (by decide)

/-! ### Claim C4: the correctness streak -/

/-- C4 counterexample: a silence-tagged turn does not reset the streak in
the interview_system controller.  After one correct 85-score turn the
streak is 1; a following "." message is classified silence and the streak
stays 1, while the claim demands 0. -/
theorem C4_counterexample_silence_keeps_streak :
    (process
        (process (coach_start "Junior") "отличный ответ про списки"
          { is_correct := some true, correctness_score := some 85,
            difficulty_recommendation := some "maintain" } none "ок").state
        "." { } none "ок").edge_case = some .silence
    ∧ (process
        (process (coach_start "Junior") "отличный ответ про списки"
          { is_correct := some true, correctness_score := some 85,
            difficulty_recommendation := some "maintain" } none "ок").state
        "." { } none "ок").state.correct_streak = 1 := by
  constructor
  · decide
  · decide

/-- C4 (amended): the streak is non-negative and is governed entirely by
the normal path: on a non-terminating turn with no edge case it becomes 0
unless the verdict is truthy with score at least 80, in which case it
increments by one (unless the raise rule consumes it and resets to 0); a
turn carrying any edge case — silence and dont_know included — leaves
the streak unchanged rather than resetting it, and a termination turn
leaves it unchanged as well. -/
theorem C4_streak_rule :
    (∀ st msg a fc resp, 0 ≤ st.correct_streak →
        0 ≤ (process st msg a fc resp).state.correct_streak)
    ∧ (∀ st msg a fc resp, contains_term_command msg = false →
        detect_edge_case msg a = none →
        ¬(obool a.is_correct = true ∧ 80 ≤ analysis_score a) →
        (process st msg a fc resp).state.correct_streak = 0)
    ∧ (∀ st msg a fc resp, contains_term_command msg = false →
        detect_edge_case msg a = none →
        (obool a.is_correct = true ∧ 80 ≤ analysis_score a) →
        raise_condition st a = false →
        (process st msg a fc resp).state.correct_streak = st.correct_streak + 1)
    ∧ (∀ st msg a fc resp, detect_edge_case msg a ≠ none →
        (process st msg a fc resp).state.correct_streak = st.correct_streak) := by
  refine ⟨?_, ?_, ?_, ?_⟩
  · intro st msg a fc resp h0
    rw [process_streak_val]
    split_ifs <;>
      first
        | exact h0
        | omega
        | (unfold updated_streak; split_ifs <;> omega)
  · intro st msg a fc resp ht he hno
    rw [process_streak_val]
    simp only [ht, Bool.false_eq_true, if_false, he, if_pos rfl]
    have hz : updated_streak st a = 0 := by
      unfold updated_streak
      rw [if_neg]
      simpa [Bool.and_eq_true, decide_eq_true_eq] using hno
    rw [hz]
    split_ifs <;> rfl
  · intro st msg a fc resp ht he hyes hrc
    rw [process_streak_val]
    simp only [ht, Bool.false_eq_true, if_false, he, if_pos rfl, hrc]
    have hs : updated_streak st a = st.correct_streak + 1 := by
      unfold updated_streak
      rw [if_pos]
      simpa [Bool.and_eq_true, decide_eq_true_eq] using hyes
    simp [hs]
  · intro st msg a fc resp he
    rw [process_streak_val]
    simp only [he, if_false]
    split_ifs <;> rfl

/-- Witness for C4 at a concrete input: a wrong answer on a normal-path
turn resets the streak to 0. -/
theorem C4_streak_rule_witness :
    (process (coach_start "Junior") "слабый ответ про кортежи"
        { is_correct := some false } none "ок").state.correct_streak = 0 :=
  C4_streak_rule.2.1 (coach_start "Junior") "слабый ответ про кортежи"
    { is_correct := some false } none "ок" (by decide) (by decide) (by decide)

/-! ### Claim C5: edge-case overrides of the difficulty update -/

/-- C5: on a non-terminating turn tagged dont_know or silence the
difficulty becomes max(1, level-1) whatever the analysis record says,
bypassing the normal scoring path; on a turn tagged rude or troll both
the difficulty and the streak are left unchanged. -/
theorem C5_edge_case_overrides :
    (∀ st msg a fc resp, contains_term_command msg = false →
        (detect_edge_case msg a = some .dont_know
          ∨ detect_edge_case msg a = some .silence) →
        (process st msg a fc resp).state.difficulty = max 1 (st.difficulty - 1))
    ∧ (∀ st msg a fc resp, contains_term_command msg = false →
        (detect_edge_case msg a = some .rude ∨ detect_edge_case msg a = some .troll) →
        (process st msg a fc resp).state.difficulty = st.difficulty
        ∧ (process st msg a fc resp).state.correct_streak = st.correct_streak) := by
  constructor
  · intro st msg a fc resp ht hds
    have hne : ¬ detect_edge_case msg a = none := by
      rcases hds with h | h <;> simp [h]
    rw [process_difficulty_val]
    simp [ht, hne, hds]
  · intro st msg a fc resp ht hrt
    have hne : ¬ detect_edge_case msg a = none := by
      rcases hrt with h | h <;> simp [h]
    have hnds : ¬(detect_edge_case msg a = some .dont_know
        ∨ detect_edge_case msg a = some .silence) := by
      rcases hrt with h | h <;> simp [h]
    constructor
    · rw [process_difficulty_val]
      simp [ht, hne, hnds]
    · rw [process_streak_val]
      simp [ht, hne]

/-- Witness for C5 at a concrete input: a "." message (silence) lowers a
Junior session from 3 to max(1, 3-1) = 2 whatever the (here enthusiastic)
oracle record recommends. -/
theorem C5_edge_case_overrides_witness :
    (process (coach_start "Junior") "."
        { is_correct := some true, correctness_score := some 95,
          difficulty_recommendation := some "increase" } none "ок").state.difficulty
      = max 1 ((coach_start "Junior").difficulty - 1) :=
  C5_edge_case_overrides.1 (coach_start "Junior") "."
    { is_correct := some true, correctness_score := some 95,
      difficulty_recommendation := some "increase" } none "ок"
    (by decide) (Or.inr (by decide))

/-! ### Claim C6: edge-case classifier precedence -/

/-- C6: the classifier is a pure function of the message and the analysis
record, returning at most one tag by testing silence, dont_know, rude,
troll in this order with first match winning; in particular a message
satisfying the silence test (trimmed length below 3 or a filler token) is
classified silence for every analysis record, so it is never also
reported as dont_know, rude or troll, whatever the oracle flags say. -/
theorem C6_edge_case_precedence :
    (∀ msg a, silence_condition msg = true → detect_edge_case msg a = some .silence)
    ∧ (∀ msg a a', silence_condition msg = true →
        detect_edge_case msg a = detect_edge_case msg a')
    ∧ (∀ msg a, silence_condition msg = false → dont_know_condition msg a = true →
        detect_edge_case msg a = some .dont_know)
    ∧ (∀ msg a, silence_condition msg = false → dont_know_condition msg a = false →
        rude_condition msg a = true → detect_edge_case msg a = some .rude)
    ∧ (∀ msg a, silence_condition msg = false → dont_know_condition msg a = false →
        rude_condition msg a = false → troll_condition msg a = true →
        detect_edge_case msg a = some .troll)
    ∧ (∀ msg a, silence_condition msg = false → dont_know_condition msg a = false →
        rude_condition msg a = false → troll_condition msg a = false →
        detect_edge_case msg a = none) := by
  have hsil : ∀ msg a, silence_condition msg = true →
      detect_edge_case msg a = some .silence := by
    intro msg a h
    unfold detect_edge_case
    simp [h]
  refine ⟨hsil, ?_, ?_, ?_, ?_, ?_⟩
  · intro msg a a' h
    rw [hsil msg a h, hsil msg a' h]
  · intro msg a h1 h2
    unfold detect_edge_case
    simp [h1, h2]
  · intro msg a h1 h2 h3
    unfold detect_edge_case
    simp [h1, h2, h3]
  · intro msg a h1 h2 h3 h4
    unfold detect_edge_case
    simp [h1, h2, h3, h4]
  · intro msg a h1 h2 h3 h4
    unfold detect_edge_case
    simp [h1, h2, h3, h4]

/-- Witness for C6 at a concrete input: the "." filler is classified
silence even when the oracle flags claim dont_know and rude. -/
theorem C6_edge_case_precedence_witness :
    detect_edge_case "."
        { is_dont_know := some true, is_rude := some true } = some .silence :=
  C6_edge_case_precedence.1 "." { is_dont_know := some true, is_rude := some true }
    (by decide)

/-! ### Claim C7: termination keywords bypass the analysis pipeline -/

/-- C7: a candidate message containing a termination keyword sends the
controller straight to feedback compilation: the mentor is not consulted,
the fact-check is not invoked, the difficulty state and red flags are
untouched and the session is marked finished — for every session state,
the very first turn included; `should_continue` of the graph routes such
a message to the feedback node whatever the turn counter is. -/
theorem C7_termination_bypasses_analysis :
    (∀ st msg a fc resp, contains_term_command msg = true →
        (process st msg a fc resp).mentor_called = false
        ∧ (process st msg a fc resp).fact_check_called = false
        ∧ (process st msg a fc resp).feedback_generated = true
        ∧ (process st msg a fc resp).state.finished = true
        ∧ (process st msg a fc resp).state.difficulty = st.difficulty
        ∧ (process st msg a fc resp).state.correct_streak = st.correct_streak
        ∧ (process st msg a fc resp).state.difficulty_history = st.difficulty_history
        ∧ (process st msg a fc resp).state.red_flags = st.red_flags)
    ∧ (∀ last current_turn max_turns,
        graph_term_keywords.any (fun cmd => py_in cmd (py_lower last)) = true →
        should_continue false (some last) current_turn max_turns = "feedback") := by
  constructor
  · intro st msg a fc resp ht
    refine ⟨?_, ?_, ?_, ?_, ?_, ?_, ?_, ?_⟩
    · rw [process_mentor_called, ht]; rfl
    · rw [process_fc_called, ht]; rfl
    · rw [process_feedback_val, ht]
    · rw [process_finished_val, ht]; rfl
    · rw [process_difficulty_val]; simp [ht]
    · rw [process_streak_val]; simp [ht]
    · rw [process_history_val]; simp [ht]
    · rw [process_red_flags_val]; simp [ht]
  · intro last current_turn max_turns h
    unfold should_continue
    simp [h]

/-- Witness for C7 at a concrete input: the message of the demo script
that stops the session, sent as the very first turn of a fresh Junior
session. -/
theorem C7_termination_bypasses_analysis_witness :
    (process (coach_start "Junior") "стоп игра. давай фидбэк."
        { } none "ок").mentor_called = false
    ∧ (process (coach_start "Junior") "стоп игра. давай фидбэк."
        { } none "ок").fact_check_called = false
    ∧ (process (coach_start "Junior") "стоп игра. давай фидбэк."
        { } none "ок").feedback_generated = true
    ∧ (process (coach_start "Junior") "стоп игра. давай фидбэк."
        { } none "ок").state.finished = true
    ∧ (process (coach_start "Junior") "стоп игра. давай фидбэк."
        { } none "ок").state.difficulty = (coach_start "Junior").difficulty
    ∧ (process (coach_start "Junior") "стоп игра. давай фидбэк."
        { } none "ок").state.correct_streak = (coach_start "Junior").correct_streak
    ∧ (process (coach_start "Junior") "стоп игра. давай фидбэк."
        { } none "ок").state.difficulty_history = (coach_start "Junior").difficulty_history
    ∧ (process (coach_start "Junior") "стоп игра. давай фидбэк."
        { } none "ок").state.red_flags = (coach_start "Junior").red_flags :=
  C7_termination_bypasses_analysis.1 (coach_start "Junior")
    "стоп игра. давай фидбэк." { } none "ок" (by decide)

/-! ### Claim C9: red flags from fact-check verdicts -/

/-- C9 counterexample: in the interview_system controller an unparseable
fact-check response does not append nothing — `FactCheckerAgent.check`
replaces the empty retry result with a default record reporting false, so
`process` appends a generic red flag. -/
theorem C9_counterexample_unparseable_appends :
    (process { } "рассказ про питон" { is_hallucination := some true }
        none "ок").fact_check_called = true
    ∧ (process { } "рассказ про питон" { is_hallucination := some true }
        none "ок").state.red_flags
      = ["ГАЛЛЮЦИНАЦИЯ: Не удалось проверить утверждение. Правильная информация: "] := by
  constructor
  · decide
  · decide

/-- C9 (amended): in the graph controller a red flag is appended exactly
when the gate fired and the parsed fact-check record's verdict is
literally false; an unparseable response (parsed to a null verdict) and a
true verdict each append nothing.  In the interview_system controller an
unparseable fact-check response is replaced by a default record reporting
false, so a red flag is appended there. -/
theorem C9_red_flag_rule :
    (∀ gst msg a fc, (mentor_node gst msg a fc).out.red_flags
        = gst.red_flags
          ++ (if graph_should_fact_check msg a
                ∧ (agents_fact_checker_check fc).is_true = .jfalse
             then [graph_hallucination_flag (agents_fact_checker_check fc)] else []))
    ∧ (∀ gst msg a, (mentor_node gst msg a none).out.red_flags = gst.red_flags)
    ∧ (∀ gst msg a e c,
        (mentor_node gst msg a (some ⟨.jtrue, e, c⟩)).out.red_flags = gst.red_flags)
    ∧ (∀ st msg a resp, contains_term_command msg = false →
        obool a.is_hallucination = true →
        (process st msg a none resp).state.red_flags
          = st.red_flags ++ [hallucination_flag (fact_checker_check none)]) := by
  have hmain : ∀ gst msg a fc, (mentor_node gst msg a fc).out.red_flags
      = gst.red_flags
        ++ (if graph_should_fact_check msg a
              ∧ (agents_fact_checker_check fc).is_true = .jfalse
           then [graph_hallucination_flag (agents_fact_checker_check fc)] else []) := by
    intro gst msg a fc
    rw [mentor_node_red_flags]
    congr 1
    split_ifs <;> simp_all
  refine ⟨hmain, ?_, ?_, ?_⟩
  · intro gst msg a
    rw [hmain]
    simp [agents_fact_checker_check]
  · intro gst msg a e c
    rw [hmain]
    simp [agents_fact_checker_check]
  · intro st msg a resp ht hh
    rw [process_red_flags_val]
    simp [ht, hh, fact_checker_check, JBool.truthy_or_default]

/-- Witness for C9 at a concrete input: a hallucination-flagged turn with
an unparseable fact-check response appends the default flag in the
interview_system controller. -/
theorem C9_red_flag_rule_witness :
    (process (coach_start "Junior") "ответ про джанго"
        { is_hallucination := some true } none "ок").state.red_flags
      = (coach_start "Junior").red_flags
        ++ [hallucination_flag (fact_checker_check none)] :=
  C9_red_flag_rule.2.2.2 (coach_start "Junior") "ответ про джанго"
    { is_hallucination := some true } "ок" (by decide) (by decide)

/-! ### Claim C10: the difficulty-history policy -/

/-- C10 counterexample: the interview_system adapter appends to the
history even when the level does not change — a maintain turn at level 5
turns the history [5] into [5, 5], while the claim says an entry is
appended exactly when the level changes. -/
theorem C10_counterexample_append_without_change :
    (adjust_difficulty
        { difficulty := 5, correct_streak := 0, difficulty_history := [5],
          topics_covered := [], red_flags := [], history := [], turn_num := 0,
          finished := false } { }).difficulty = 5
    ∧ (adjust_difficulty
        { difficulty := 5, correct_streak := 0, difficulty_history := [5],
          topics_covered := [], red_flags := [], history := [], turn_num := 0,
          finished := false } { }).difficulty_history = [5, 5] := by
  constructor
  · decide
  · decide

/-- C10 (amended): the graph controller appends to the difficulty history
exactly when the level changed on an adaptive turn, while the
interview_system adapter appends the (possibly unchanged) level on every
adjusted turn; in every path the history is only ever appended to — the
previous history is a prefix of the new one. -/
theorem C10_history_policy :
    (∀ st a, (adjust_difficulty st a).difficulty_history
        = st.difficulty_history ++ [(adjust_difficulty st a).difficulty])
    ∧ (∀ gst msg a fc, graph_mode gst = "adaptive" →
        (mentor_node gst msg a fc).out.difficulty_history
          = (if (mentor_node gst msg a fc).out.difficulty_level ≠ graph_clamped_level gst
             then graph_base_history gst ++ [(mentor_node gst msg a fc).out.difficulty_level]
             else graph_base_history gst))
    ∧ (∀ st msg a fc resp, ∃ t, (process st msg a fc resp).state.difficulty_history
        = st.difficulty_history ++ t)
    ∧ (∀ gst msg a fc, ∃ t, (mentor_node gst msg a fc).out.difficulty_history
        = graph_base_history gst ++ t)
    ∧ (∀ gst msg a fc, gst.difficulty_history ≠ [] →
        ∃ t, (mentor_node gst msg a fc).out.difficulty_history
          = gst.difficulty_history ++ t) := by
  have happend : ∀ gst msg a fc, ∃ t, (mentor_node gst msg a fc).out.difficulty_history
      = graph_base_history gst ++ t := by
    intro gst msg a fc
    rw [mentor_node_history]
    split_ifs
    · exact ⟨[(mentor_node gst msg a fc).out.difficulty_level], rfl⟩
    · exact ⟨[], by simp⟩
  refine ⟨?_, ?_, ?_, happend, ?_⟩
  · intro st a
    exact adjust_history_val st a
  · intro gst msg a fc hmode
    rw [mentor_node_history]
    split_ifs with h1 h2 <;> simp_all
  · intro st msg a fc resp
    rw [process_history_val]
    split_ifs
    · exact ⟨[], by simp⟩
    · exact ⟨[(process st msg a fc resp).state.difficulty], rfl⟩
    · exact ⟨[], by simp⟩
  · intro gst msg a fc hne
    have hbase : graph_base_history gst = gst.difficulty_history := by
      unfold graph_base_history
      simp [hne]
    obtain ⟨t, ht⟩ := happend gst msg a fc
    exact ⟨t, by rw [ht, hbase]⟩

/-- Witness for C10 at a concrete input: an adaptive graph turn whose
increase recommendation moves the level from 5 to 6 appends exactly one
entry, giving the history [5, 6]. -/
theorem C10_history_policy_witness :
    (mentor_node
        { difficulty_mode := "adaptive", difficulty_level := 5, correct_streak := 0,
          difficulty_history := [5], red_flags := [], topics_covered := [] }
        "ответ про декораторы"
        { is_correct := some true, correctness_score := some 95,
          difficulty_recommendation := some "increase" }
        none).out.difficulty_history = [5, 6] := by
  have h := C10_history_policy.2.1
    { difficulty_mode := "adaptive", difficulty_level := 5, correct_streak := 0,
      difficulty_history := [5], red_flags := [], topics_covered := [] }
    "ответ про декораторы"
    { is_correct := some true, correctness_score := some 95,
      difficulty_recommendation := some "increase" }
    none (by decide)
  rw [h]
  decide

/-! ### Claim C8: structured-response recovery contract -/

/-- C8: `call_llm_with_json_retry` issues at most `n` attempts; the trace
of issued calls uses, on attempt `i`, the prompt unmodified for `i` = 0
and the prompt with the stricter JSON-only suffix afterwards, at
temperature max(0.3, base - 0.2 times `i`); the returned record is the
first attempt outcome that parsed to a non-empty record (the remaining
attempts are not issued), and the empty record (`none`) is returned
exactly when every attempt fails to yield one — an attempt whose call
raises is a failed attempt, never a propagated exception. -/
theorem C8_retry_contract : ∀ (J : Type) (llm : String → ℚ → Except Unit String)
    (extract : String → Option J) (prompt : String) (n : Nat) (base : ℚ),
    (call_llm_with_json_retry llm extract prompt n base).1
      = (List.range n).findSome? (attempt_outcome llm extract prompt base)
    ∧ ((call_llm_with_json_retry llm extract prompt n base).1 = none
        ↔ ∀ i < n, attempt_outcome llm extract prompt base i = none)
    ∧ (call_llm_with_json_retry llm extract prompt n base).2.length ≤ n
    ∧ (call_llm_with_json_retry llm extract prompt n base).2
      = (List.range' 0 (call_llm_with_json_retry llm extract prompt n base).2.length).map
          (fun k => { prompt := retry_attempt_prompt prompt k
                      temperature := retry_temperature base k })
    ∧ retry_attempt_prompt prompt 0 = prompt
    ∧ (∀ i, i ≠ 0 → retry_attempt_prompt prompt i = prompt ++ retry_suffix i)
    ∧ (∀ i, retry_temperature base i = max (3/10) (base - i * (1/5))) := by
  intro J llm extract prompt n base
  have hfst : (call_llm_with_json_retry llm extract prompt n base).1
      = (List.range n).findSome? (attempt_outcome llm extract prompt base) := by
    unfold call_llm_with_json_retry
    rw [retry_go_fst, List.range_eq_range']
  refine ⟨hfst, ?_, ?_, ?_, rfl, ?_, fun i => rfl⟩
  · rw [hfst, List.findSome?_eq_none_iff]
    constructor
    · intro h i hi
      exact h i (List.mem_range.mpr hi)
    · intro h i hi
      exact h i (List.mem_range.mp hi)
  · exact retry_go_trace_len llm extract prompt base n 0
  · exact retry_go_trace llm extract prompt base n 0
  · intro i hi
    unfold retry_attempt_prompt
    simp [hi]

/-- Witness for C8 at a concrete input: an LLM stub that echoes its
prompt, with an extractor that only accepts the suffixed retry prompt,
succeeds on attempt 1 after a failed attempt 0. -/
theorem C8_retry_contract_witness :
    (call_llm_with_json_retry (fun p _ => Except.ok p)
        (fun s => if s = "pp" then none else some 0) "pp" 3 (7/10)).1 = some 0
    ∧ (call_llm_with_json_retry (fun p _ => Except.ok p)
        (fun s => if s = "pp" then none else some 0) "pp" 3 (7/10)).2.length ≤ 3 := by
  have h := C8_retry_contract Nat (fun p _ => Except.ok p)
    (fun s => if s = "pp" then none else some 0) "pp" 3 (7/10)
  refine ⟨?_, h.2.2.1⟩
  rw [h.1]
  decide
